import Mathlib

/-!
Verification of the BL808 boot-header and interrupt-dispatch core
(`src/soc/bl808.rs`).  The Rust code is shallowly embedded: machine
integers become `Nat` (all CRC intermediate values stay below `2^32`
because `Nat.xor`, `Nat.shiftRight` and division never enlarge 32-bit
operands), structures become Lean structures with the same field names
and order, and the effectful interrupt dispatcher becomes a pure
function from the claim answer of the interrupt controller to the trace of
externally visible events it produces.
-/

set_option maxRecDepth 10000

/-- One bit step of the reflected CRC-32 loop with the ISO-HDLC
(reversed) polynomial `0xEDB88320`: shift right, and fold the
polynomial in when the dropped bit was set.  This is the bitwise
algorithm realised by `crc::Crc::<u32>::new(&crc::CRC_32_ISO_HDLC)`. -/
def crcBitStep (c : Nat) : Nat :=
  if c % 2 = 1 then Nat.xor (c / 2) 0xEDB88320 else c / 2

/-- Absorb one input byte into the running CRC-32 state: xor the byte
into the low bits, then run eight bit steps. -/
def crcByteStep (c b : Nat) : Nat :=
  crcBitStep (crcBitStep (crcBitStep (crcBitStep
    (crcBitStep (crcBitStep (crcBitStep (crcBitStep (Nat.xor c b))))))))

/-- CRC-32/ISO-HDLC of a byte sequence: initial value `0xFFFFFFFF`,
reflected input/output, final xor `0xFFFFFFFF`.  Embeds
`crc::Crc::<u32>::new(&crc::CRC_32_ISO_HDLC).checksum(buf)` as used
by `HalSysClkConfig::crc32`. -/
def crc32_iso_hdlc (bytes : List Nat) : Nat :=
  Nat.xor (bytes.foldl crcByteStep 0xFFFFFFFF) 0xFFFFFFFF

/-- Hardware system clock configuration (`HalSysClkConfig`): twenty
single-byte selector fields, in the declaration order of the Rust
`#[repr(C)]` struct. -/
structure HalSysClkConfig where
  xtal_type : Nat
  mcu_clk : Nat
  mcu_clk_div : Nat
  mcu_bclk_div : Nat
  mcu_pbclk_div : Nat
  lp_div : Nat
  dsp_clk : Nat
  dsp_clk_div : Nat
  dsp_bclk_div : Nat
  dsp_pbclk : Nat
  dsp_pbclk_div : Nat
  emi_clk : Nat
  emi_clk_div : Nat
  flash_clk_type : Nat
  flash_clk_div : Nat
  wifipll_pu : Nat
  aupll_pu : Nat
  cpupll_pu : Nat
  mipipll_pu : Nat
  uhspll_pu : Nat
deriving Repr, DecidableEq

/-- Method `HalSysClkConfig::crc32`: fill a 20-byte buffer with the selector
fields, one assignment per field exactly as in the source, and hash it
with CRC-32/ISO-HDLC. -/
def HalSysClkConfig.crc32 (self : HalSysClkConfig) : Nat :=
  let buf : List Nat := List.replicate 20 0
  let buf := buf.set 0 self.xtal_type
  let buf := buf.set 1 self.mcu_clk
  let buf := buf.set 2 self.mcu_clk_div
  let buf := buf.set 3 self.mcu_bclk_div
  let buf := buf.set 4 self.mcu_pbclk_div
  let buf := buf.set 5 self.lp_div
  let buf := buf.set 6 self.dsp_clk
  let buf := buf.set 7 self.dsp_clk_div
  let buf := buf.set 8 self.dsp_bclk_div
  let buf := buf.set 9 self.dsp_pbclk
  let buf := buf.set 10 self.dsp_pbclk_div
  let buf := buf.set 11 self.emi_clk
  let buf := buf.set 12 self.emi_clk_div
  let buf := buf.set 13 self.flash_clk_type
  let buf := buf.set 14 self.flash_clk_div
  let buf := buf.set 15 self.wifipll_pu
  let buf := buf.set 16 self.aupll_pu
  let buf := buf.set 17 self.cpupll_pu
  let buf := buf.set 18 self.mipipll_pu
  let buf := buf.set 19 self.uhspll_pu
  crc32_iso_hdlc buf

/-- The 20 selector fields serialized in field-declaration order, as
the spec describes the checksum payload.  Used to state the refinement
between the buffer-filling code of the source and the wording of the spec. -/
def serializeSysClkConfig (c : HalSysClkConfig) : List Nat :=
  [c.xtal_type, c.mcu_clk, c.mcu_clk_div, c.mcu_bclk_div,
   c.mcu_pbclk_div, c.lp_div, c.dsp_clk, c.dsp_clk_div,
   c.dsp_bclk_div, c.dsp_pbclk, c.dsp_pbclk_div, c.emi_clk,
   c.emi_clk_div, c.flash_clk_type, c.flash_clk_div, c.wifipll_pu,
   c.aupll_pu, c.cpupll_pu, c.mipipll_pu, c.uhspll_pu]

/-- Clock configuration record in the ROM header (`HalPllConfig`):
magic, embedded clock config, checksum. -/
structure HalPllConfig where
  magic : Nat
  cfg : HalSysClkConfig
  crc32 : Nat
deriving Repr, DecidableEq

/-- Constructor `HalPllConfig::new`: fills in the magic number and the CRC32 of
the given clock configuration. -/
def HalPllConfig.new (cfg : HalSysClkConfig) : HalPllConfig :=
  let crc32 := cfg.crc32
  { magic := 0x47464350, cfg := cfg, crc32 := crc32 }

/-- Processor core configuration in the ROM header (`HalCpuCfg`). -/
structure HalCpuCfg where
  config_enable : Nat
  halt_cpu : Nat
  cache_flags : Nat
  _rsvd : Nat
  cache_range_h : Nat
  cache_range_l : Nat
  image_address_offset : Nat
  boot_entry : Nat
  msp_val : Nat
deriving Repr, DecidableEq

/-- Constructor `HalCpuCfg::disabled`: the disabled-core sentinel record. -/
def HalCpuCfg.disabled : HalCpuCfg :=
  { config_enable := 0
    halt_cpu := 0
    cache_flags := 0
    _rsvd := 0
    cache_range_h := 0
    cache_range_l := 0
    image_address_offset := 0
    boot_entry := 0x0
    msp_val := 0 }

/-- Size and alignment of a C type, as used by Rust `#[repr(C)]`. -/
structure CLayout where
  size : Nat
  align : Nat
deriving Repr, DecidableEq

/-- Round `n` up to the next multiple of `a`. -/
def alignUp (n a : Nat) : Nat := ((n + a - 1) / a) * a

/-- Layout of `u8`. -/
def u8Layout : CLayout := ⟨1, 1⟩

/-- Layout of `u32`. -/
def u32Layout : CLayout := ⟨4, 4⟩

/-- Layout of `usize` on the 64-bit DSP core. -/
def usizeLayout : CLayout := ⟨8, 8⟩

/-- Layout of the array type `[T; n]`. -/
def arrayLayout (n : Nat) (t : CLayout) : CLayout := ⟨n * t.size, t.align⟩

/-- Offsets assigned to named fields by the `#[repr(C)]` algorithm:
each field is placed at the running offset rounded up to the alignment
of the field. -/
def structOffsetsAux : Nat → List (String × CLayout) → List (String × Nat)
  | _, [] => []
  | off, (name, f) :: fs =>
      let o := alignUp off f.align
      (name, o) :: structOffsetsAux (o + f.size) fs

/-- Field offsets of a `#[repr(C)]` struct, starting at offset 0. -/
def structFieldOffsets (fields : List (String × CLayout)) : List (String × Nat) :=
  structOffsetsAux 0 fields

/-- End offset (before tail padding) of a `#[repr(C)]` struct. -/
def structEnd : Nat → List (String × CLayout) → Nat
  | off, [] => off
  | off, (_, f) :: fs => structEnd (alignUp off f.align + f.size) fs

/-- Alignment of a `#[repr(C)]` struct: maximum field alignment. -/
def structAlign (fields : List (String × CLayout)) : Nat :=
  fields.foldl (fun a f => max a f.2.align) 1

/-- Size and alignment of a `#[repr(C)]` struct: the end offset padded
up to the struct alignment. -/
def structLayout (fields : List (String × CLayout)) : CLayout :=
  ⟨alignUp (structEnd 0 fields) (structAlign fields), structAlign fields⟩

/-- Byte offset of a named field inside a `#[repr(C)]` struct. -/
def offsetOf (fields : List (String × CLayout)) (name : String) : Option Nat :=
  (structFieldOffsets fields).lookup name

/-- Fields of `HalSysClkConfig`, in declaration order. -/
def HalSysClkConfig_fields : List (String × CLayout) :=
  [("xtal_type", u8Layout), ("mcu_clk", u8Layout),
   ("mcu_clk_div", u8Layout), ("mcu_bclk_div", u8Layout),
   ("mcu_pbclk_div", u8Layout), ("lp_div", u8Layout),
   ("dsp_clk", u8Layout), ("dsp_clk_div", u8Layout),
   ("dsp_bclk_div", u8Layout), ("dsp_pbclk", u8Layout),
   ("dsp_pbclk_div", u8Layout), ("emi_clk", u8Layout),
   ("emi_clk_div", u8Layout), ("flash_clk_type", u8Layout),
   ("flash_clk_div", u8Layout), ("wifipll_pu", u8Layout),
   ("aupll_pu", u8Layout), ("cpupll_pu", u8Layout),
   ("mipipll_pu", u8Layout), ("uhspll_pu", u8Layout)]

/-- Fields of `HalPllConfig`, in declaration order. -/
def HalPllConfig_fields : List (String × CLayout) :=
  [("magic", u32Layout),
   ("cfg", structLayout HalSysClkConfig_fields),
   ("crc32", u32Layout)]

/-- Fields of `HalCpuCfg`, in declaration order. -/
def HalCpuCfg_fields : List (String × CLayout) :=
  [("config_enable", u8Layout), ("halt_cpu", u8Layout),
   ("cache_flags", u8Layout), ("_rsvd", u8Layout),
   ("cache_range_h", u32Layout), ("cache_range_l", u32Layout),
   ("image_address_offset", u32Layout), ("boot_entry", u32Layout),
   ("msp_val", u32Layout)]

/-- Modelled from the spec: `HalPatchCfg` is declared in the crate
root, which is not under src/; the spec gives its layout as
`address(u32), value(u32)`. -/
def HalPatchCfg_fields : List (String × CLayout) :=
  [("addr", u32Layout), ("value", u32Layout)]

/-- Modelled from the spec: `HalFlashConfig` is declared in the crate
root, which is not under src/; the spec places `flash_cfg` at 0x08 and
`clock_cfg` at 0x64 in the header, so the flash configuration block is
a u32-aligned record of 0x5C = 92 bytes. -/
def HalFlashConfig_layout : CLayout := ⟨92, 4⟩

/-- Modelled from the spec: `HalBasicConfig` is declared in the crate
root, which is not under src/; the spec places `basic_cfg` at 0x80 and
`cpu_cfg` at 0xB0 in the header, so the basic image flags block is a
u32-aligned record of 0x30 = 48 bytes. -/
def HalBasicConfig_layout : CLayout := ⟨48, 4⟩

/-- Fields of `HalBootheader`, in declaration order. -/
def HalBootheader_fields : List (String × CLayout) :=
  [("magic", u32Layout), ("revision", u32Layout),
   ("flash_cfg", HalFlashConfig_layout),
   ("clk_cfg", structLayout HalPllConfig_fields),
   ("basic_cfg", HalBasicConfig_layout),
   ("cpu_cfg", arrayLayout 3 (structLayout HalCpuCfg_fields)),
   ("boot2_pt_table_0", u32Layout), ("boot2_pt_table_1", u32Layout),
   ("flash_cfg_table_addr", u32Layout), ("flash_cfg_table_len", u32Layout),
   ("patch_on_read", arrayLayout 4 (structLayout HalPatchCfg_fields)),
   ("patch_on_jump", arrayLayout 4 (structLayout HalPatchCfg_fields)),
   ("_reserved", arrayLayout 5 u32Layout),
   ("crc32", u32Layout)]

/-- Hart context index of `D0Machine`: `plic::HartContext::index`
returns 0. -/
def D0Machine_index : Nat := 0

/-- Table `D0_INTERRUPT_HANDLERS`: the 67-entry handler table, one external
symbol per DSP interrupt source, in source order. -/
def D0_INTERRUPT_HANDLERS : List String :=
  [ "bmx_dsp_bus_err", "dsp_reserved1", "dsp_reserved2", "dsp_reserved3",
    "uart3", "i2c2", "i2c3", "spi1",
    "dsp_reserved4", "dsp_reserved5", "seof_int0", "seof_int1",
    "seof_int2", "dvp2_bus_int0", "dvp2_bus_int1", "dvp2_bus_int2",
    "dvp2_bus_int3", "h264_bs", "h264_frame", "h264_seq_done",
    "mjpeg", "h264_s_bs", "h264_s_frame", "h264_s_seq_done",
    "dma2_int0", "dma2_int1", "dma2_int2", "dma2_int3",
    "dma2_int4", "dma2_int5", "dma2_int6", "dma2_int7",
    "dsp_reserved6", "dsp_reserved7", "dsp_reserved8", "dsp_reserved9",
    "dsp_reserved10", "mipi_csi", "ipc_d0", "dsp_reserved11",
    "mjdec", "dvp2_bus_int4", "dvp2_bus_int5", "dvp2_bus_int6",
    "dvp2_bus_int7", "dma2_d_int0", "dma2_d_int1", "display",
    "pwm", "seof_int3", "dsp_reserved12", "dsp_reserved13",
    "osd", "dbi", "dsp_reserved14", "osda_bus_drain",
    "osdb_bus_drain", "osd_pb", "dsp_reserved15", "mipi_dsi",
    "dsp_reserved16", "timer0", "timer1", "wdt",
    "audio", "wl_all", "pds" ]

/-- Externally visible actions of one dispatcher invocation, in
program order. -/
inductive DispatchEvent where
  | claimed (hart : Nat) (result : Option Nat)
  | handlerInvoked (tableIdx : Nat) (handler : String)
  | completed (hart : Nat) (source : Nat)
deriving Repr, DecidableEq

/-- Dispatcher `rust_bl808_dsp_machine_external`: claim a pending source for the
`D0Machine` hart context; if one is returned and its id lies in
`[16, 16 + 67)`, invoke handler-table entry `id - 16`; in every
claimed case, complete the claim for the same hart context and source.
The claim answer is the input (the PLIC is external hardware); the
result is the trace of events, or `none` if the guarded table access
were out of bounds (a Rust panic — proved unreachable below). -/
def rust_bl808_dsp_machine_external (claimResult : Option Nat) :
    Option (List DispatchEvent) :=
  match claimResult with
  | none => some [DispatchEvent.claimed D0Machine_index none]
  | some source =>
      let idx := source
      if 16 ≤ idx ∧ idx < 16 + 67 then
        match D0_INTERRUPT_HANDLERS.get? (idx - 16) with
        | some h =>
            some [DispatchEvent.claimed D0Machine_index (some source),
                  DispatchEvent.handlerInvoked (idx - 16) h,
                  DispatchEvent.completed D0Machine_index source]
        | none => none
      else
        some [DispatchEvent.claimed D0Machine_index (some source),
              DispatchEvent.completed D0Machine_index source]

/-- The handler invocations of a trace: (table index, handler). -/
def handlerInvocations (es : List DispatchEvent) : List (Nat × String) :=
  es.filterMap fun e =>
    match e with
    | DispatchEvent.handlerInvoked i h => some (i, h)
    | _ => none

/-- The completion calls of a trace: (hart, source). -/
def completionCalls (es : List DispatchEvent) : List (Nat × Nat) :=
  es.filterMap fun e =>
    match e with
    | DispatchEvent.completed h s => some (h, s)
    | _ => none

/-- A jump target of the vectored trap table: after substituting the
`sym` bindings of the source, every slot jumps either to
`machine_external` or to `reserved`. -/
inductive TrapSym where
  | machine_external_sym
  | reserved_sym
deriving Repr, DecidableEq

/-- Table `trap_vectored`: the vectored trap table, one `j` instruction per
slot, in source order (slot index = trap cause).  The `sym` bindings
send `exceptions`, `supervisor_software`, `machine_software`,
`supervisor_timer`, `machine_timer`, `supervisor_external` and
`thead_hpm_overflow` all to `reserved`, and `machine_external` to the
real handler. -/
def trap_vectored : List TrapSym :=
  [TrapSym.reserved_sym,          -- j exceptions        (slot 0)
   TrapSym.reserved_sym,          -- j supervisor_software
   TrapSym.reserved_sym,          -- j reserved
   TrapSym.reserved_sym,          -- j machine_software
   TrapSym.reserved_sym,          -- j reserved
   TrapSym.reserved_sym,          -- j supervisor_timer
   TrapSym.reserved_sym,          -- j reserved
   TrapSym.reserved_sym,          -- j machine_timer
   TrapSym.reserved_sym,          -- j reserved
   TrapSym.reserved_sym,          -- j supervisor_external
   TrapSym.reserved_sym,          -- j reserved
   TrapSym.machine_external_sym,  -- j machine_external  (slot 11)
   TrapSym.reserved_sym,          -- j reserved
   TrapSym.reserved_sym,          -- j reserved
   TrapSym.reserved_sym,          -- j reserved
   TrapSym.reserved_sym,          -- j reserved
   TrapSym.reserved_sym,          -- j reserved
   TrapSym.reserved_sym]          -- j thead_hpm_overflow (slot 17)

/-- Routine `reserved`: the halt routine `1: j 1b`.  Its only instruction
jumps back to its own label, so one execution step from any point of
the routine lands on the loop head (relative address 0). -/
def reservedStep : Nat → Nat := fun _ => 0

/-- Fields of `TrapFrame`, in declaration order: 19 `usize` words on
the 64-bit DSP core. -/
def TrapFrame_fields : List (String × CLayout) :=
  [("ra", usizeLayout), ("t0", usizeLayout), ("t1", usizeLayout),
   ("t2", usizeLayout), ("a0", usizeLayout), ("a1", usizeLayout),
   ("a2", usizeLayout), ("a3", usizeLayout), ("a4", usizeLayout),
   ("a5", usizeLayout), ("a6", usizeLayout), ("a7", usizeLayout),
   ("t3", usizeLayout), ("t4", usizeLayout), ("t5", usizeLayout),
   ("t6", usizeLayout), ("mcause", usizeLayout), ("mepc", usizeLayout),
   ("mstatus", usizeLayout)]

/-- Machine state visible to the `machine_external` trampoline: the
sixteen caller-saved general-purpose registers it stacks, the stack
pointer, the three control-status registers it saves, and
byte-addressed memory holding one 64-bit word per 8-aligned
address. -/
structure MachineState where
  ra : Nat
  t0 : Nat
  t1 : Nat
  t2 : Nat
  a0 : Nat
  a1 : Nat
  a2 : Nat
  a3 : Nat
  a4 : Nat
  a5 : Nat
  a6 : Nat
  a7 : Nat
  t3 : Nat
  t4 : Nat
  t5 : Nat
  t6 : Nat
  sp : Nat
  mcause : Nat
  mepc : Nat
  mstatus : Nat
  mem : Nat → Nat

/-- Store the 64-bit word `v` at address `a` (`sd v, a`). -/
def storeWord (m : Nat → Nat) (a v : Nat) : Nat → Nat :=
  fun x => if x = a then v else m x

/-- The entry half of `machine_external`: `addi sp, sp, -19*8`, store
ra, t0-t2, a0-a7, t3-t6 at frame offsets 0..15, read mcause/mepc/
mstatus through t0/t1/t2 and store them at offsets 16..18, then
`mv a0, sp` so the dispatcher receives the frame pointer. -/
def trapEntry (s : MachineState) : MachineState :=
  let newSp := s.sp - 152
  let m0 := storeWord s.mem newSp s.ra
  let m1 := storeWord m0 (newSp + 8) s.t0
  let m2 := storeWord m1 (newSp + 16) s.t1
  let m3 := storeWord m2 (newSp + 24) s.t2
  let m4 := storeWord m3 (newSp + 32) s.a0
  let m5 := storeWord m4 (newSp + 40) s.a1
  let m6 := storeWord m5 (newSp + 48) s.a2
  let m7 := storeWord m6 (newSp + 56) s.a3
  let m8 := storeWord m7 (newSp + 64) s.a4
  let m9 := storeWord m8 (newSp + 72) s.a5
  let m10 := storeWord m9 (newSp + 80) s.a6
  let m11 := storeWord m10 (newSp + 88) s.a7
  let m12 := storeWord m11 (newSp + 96) s.t3
  let m13 := storeWord m12 (newSp + 104) s.t4
  let m14 := storeWord m13 (newSp + 112) s.t5
  let m15 := storeWord m14 (newSp + 120) s.t6
  let m16 := storeWord m15 (newSp + 128) s.mcause
  let m17 := storeWord m16 (newSp + 136) s.mepc
  let m18 := storeWord m17 (newSp + 144) s.mstatus
  { s with
    sp := newSp, mem := m18,
    t0 := s.mcause, t1 := s.mepc, t2 := s.mstatus,
    a0 := newSp }

/-- First phase of the return half: reload frame offsets 16..18
through t0/t1/t2 and write them back to mcause, mepc and mstatus. -/
def restoreCsrs (s : MachineState) : MachineState :=
  { s with
    t0 := s.mem (s.sp + 128), mcause := s.mem (s.sp + 128),
    t1 := s.mem (s.sp + 136), mepc := s.mem (s.sp + 136),
    t2 := s.mem (s.sp + 144), mstatus := s.mem (s.sp + 144) }

/-- Second phase of the return half: reload the sixteen stacked
general-purpose registers from frame offsets 0..15. -/
def restoreGprs (s : MachineState) : MachineState :=
  { s with
    ra := s.mem s.sp, t0 := s.mem (s.sp + 8),
    t1 := s.mem (s.sp + 16), t2 := s.mem (s.sp + 24),
    a0 := s.mem (s.sp + 32), a1 := s.mem (s.sp + 40),
    a2 := s.mem (s.sp + 48), a3 := s.mem (s.sp + 56),
    a4 := s.mem (s.sp + 64), a5 := s.mem (s.sp + 72),
    a6 := s.mem (s.sp + 80), a7 := s.mem (s.sp + 88),
    t3 := s.mem (s.sp + 96), t4 := s.mem (s.sp + 104),
    t5 := s.mem (s.sp + 112), t6 := s.mem (s.sp + 120) }

/-- The return half of `machine_external`: restore the control-status
registers first, then the general-purpose registers, then
`addi sp, sp, 19*8` and `mret`; the second component is the address at
which execution resumes (the restored `mepc`). -/
def trapReturn (s : MachineState) : MachineState × Nat :=
  let s1 := restoreCsrs s
  let s2 := restoreGprs s1
  let s3 := { s2 with sp := s2.sp + 152 }
  (s3, s3.mepc)

/-- Trampoline `machine_external`: the naked wrapper around the
dispatcher, parameterized by the effect `call` of the dispatcher on
machine state. -/
def machine_external (call : MachineState → MachineState)
    (s : MachineState) : MachineState × Nat :=
  trapReturn (call (trapEntry s))

/-- The register/stack effect `machine_external` guarantees: the trap
frame written at entry holds the entry values of the 19 fields in
`TrapFrame` order at offsets 0, 8, ..., 144 from the frame base, the
dispatcher receives the frame base in `a0`, and after the return half
every stacked register, the three control-status registers and the
stack pointer hold their entry values again, with execution resuming
at the entry `mepc`. -/
def TrapSaveRestoreSpec (call : MachineState → MachineState)
    (s : MachineState) : Prop :=
  (trapEntry s).sp = s.sp - 152 ∧
  (trapEntry s).a0 = (trapEntry s).sp ∧
  ((trapEntry s).mem ((trapEntry s).sp) = s.ra ∧
   (trapEntry s).mem ((trapEntry s).sp + 8) = s.t0 ∧
   (trapEntry s).mem ((trapEntry s).sp + 16) = s.t1 ∧
   (trapEntry s).mem ((trapEntry s).sp + 24) = s.t2 ∧
   (trapEntry s).mem ((trapEntry s).sp + 32) = s.a0 ∧
   (trapEntry s).mem ((trapEntry s).sp + 40) = s.a1 ∧
   (trapEntry s).mem ((trapEntry s).sp + 48) = s.a2 ∧
   (trapEntry s).mem ((trapEntry s).sp + 56) = s.a3 ∧
   (trapEntry s).mem ((trapEntry s).sp + 64) = s.a4 ∧
   (trapEntry s).mem ((trapEntry s).sp + 72) = s.a5 ∧
   (trapEntry s).mem ((trapEntry s).sp + 80) = s.a6 ∧
   (trapEntry s).mem ((trapEntry s).sp + 88) = s.a7 ∧
   (trapEntry s).mem ((trapEntry s).sp + 96) = s.t3 ∧
   (trapEntry s).mem ((trapEntry s).sp + 104) = s.t4 ∧
   (trapEntry s).mem ((trapEntry s).sp + 112) = s.t5 ∧
   (trapEntry s).mem ((trapEntry s).sp + 120) = s.t6 ∧
   (trapEntry s).mem ((trapEntry s).sp + 128) = s.mcause ∧
   (trapEntry s).mem ((trapEntry s).sp + 136) = s.mepc ∧
   (trapEntry s).mem ((trapEntry s).sp + 144) = s.mstatus) ∧
  ((machine_external call s).1.ra = s.ra ∧
   (machine_external call s).1.t0 = s.t0 ∧
   (machine_external call s).1.t1 = s.t1 ∧
   (machine_external call s).1.t2 = s.t2 ∧
   (machine_external call s).1.a0 = s.a0 ∧
   (machine_external call s).1.a1 = s.a1 ∧
   (machine_external call s).1.a2 = s.a2 ∧
   (machine_external call s).1.a3 = s.a3 ∧
   (machine_external call s).1.a4 = s.a4 ∧
   (machine_external call s).1.a5 = s.a5 ∧
   (machine_external call s).1.a6 = s.a6 ∧
   (machine_external call s).1.a7 = s.a7 ∧
   (machine_external call s).1.t3 = s.t3 ∧
   (machine_external call s).1.t4 = s.t4 ∧
   (machine_external call s).1.t5 = s.t5 ∧
   (machine_external call s).1.t6 = s.t6 ∧
   (machine_external call s).1.mcause = s.mcause ∧
   (machine_external call s).1.mepc = s.mepc ∧
   (machine_external call s).1.mstatus = s.mstatus ∧
   (machine_external call s).1.sp = s.sp ∧
   (machine_external call s).2 = s.mepc)

/-- The C-ABI obligation the dispatcher call meets toward the
trampoline: it restores the stack pointer (`FramePreserved` covers the
frame memory; the stack-pointer half is a separate hypothesis) and it
does not overwrite the 19 trap-frame slots the trampoline will reload
(the Rust dispatcher receives `&mut TrapFrame` but never writes
through it). -/
def FramePreserved (call : MachineState → MachineState)
    (s : MachineState) : Prop :=
  ((call (trapEntry s)).mem ((trapEntry s).sp) =
    (trapEntry s).mem ((trapEntry s).sp)) ∧
  ((call (trapEntry s)).mem ((trapEntry s).sp + 8) =
    (trapEntry s).mem ((trapEntry s).sp + 8)) ∧
  ((call (trapEntry s)).mem ((trapEntry s).sp + 16) =
    (trapEntry s).mem ((trapEntry s).sp + 16)) ∧
  ((call (trapEntry s)).mem ((trapEntry s).sp + 24) =
    (trapEntry s).mem ((trapEntry s).sp + 24)) ∧
  ((call (trapEntry s)).mem ((trapEntry s).sp + 32) =
    (trapEntry s).mem ((trapEntry s).sp + 32)) ∧
  ((call (trapEntry s)).mem ((trapEntry s).sp + 40) =
    (trapEntry s).mem ((trapEntry s).sp + 40)) ∧
  ((call (trapEntry s)).mem ((trapEntry s).sp + 48) =
    (trapEntry s).mem ((trapEntry s).sp + 48)) ∧
  ((call (trapEntry s)).mem ((trapEntry s).sp + 56) =
    (trapEntry s).mem ((trapEntry s).sp + 56)) ∧
  ((call (trapEntry s)).mem ((trapEntry s).sp + 64) =
    (trapEntry s).mem ((trapEntry s).sp + 64)) ∧
  ((call (trapEntry s)).mem ((trapEntry s).sp + 72) =
    (trapEntry s).mem ((trapEntry s).sp + 72)) ∧
  ((call (trapEntry s)).mem ((trapEntry s).sp + 80) =
    (trapEntry s).mem ((trapEntry s).sp + 80)) ∧
  ((call (trapEntry s)).mem ((trapEntry s).sp + 88) =
    (trapEntry s).mem ((trapEntry s).sp + 88)) ∧
  ((call (trapEntry s)).mem ((trapEntry s).sp + 96) =
    (trapEntry s).mem ((trapEntry s).sp + 96)) ∧
  ((call (trapEntry s)).mem ((trapEntry s).sp + 104) =
    (trapEntry s).mem ((trapEntry s).sp + 104)) ∧
  ((call (trapEntry s)).mem ((trapEntry s).sp + 112) =
    (trapEntry s).mem ((trapEntry s).sp + 112)) ∧
  ((call (trapEntry s)).mem ((trapEntry s).sp + 120) =
    (trapEntry s).mem ((trapEntry s).sp + 120)) ∧
  ((call (trapEntry s)).mem ((trapEntry s).sp + 128) =
    (trapEntry s).mem ((trapEntry s).sp + 128)) ∧
  ((call (trapEntry s)).mem ((trapEntry s).sp + 136) =
    (trapEntry s).mem ((trapEntry s).sp + 136)) ∧
  ((call (trapEntry s)).mem ((trapEntry s).sp + 144) =
    (trapEntry s).mem ((trapEntry s).sp + 144))

/-- A concrete machine state with pairwise distinct register values,
used to witness the save/restore theorem. -/
def exampleMachineState : MachineState :=
  { ra := 1, t0 := 2, t1 := 3, t2 := 4,
    a0 := 5, a1 := 6, a2 := 7, a3 := 8,
    a4 := 9, a5 := 10, a6 := 11, a7 := 12,
    t3 := 13, t4 := 14, t5 := 15, t6 := 16,
    sp := 160, mcause := 2147483659, mepc := 305419896, mstatus := 42,
    mem := fun _ => 0 }

/-- The reference clock configuration of the `magic_crc32_hal_pll_config`
unit test. -/
def referenceSysClkConfig : HalSysClkConfig :=
  { xtal_type := 4, mcu_clk := 4, mcu_clk_div := 0, mcu_bclk_div := 0,
    mcu_pbclk_div := 3, lp_div := 1, dsp_clk := 3, dsp_clk_div := 0,
    dsp_bclk_div := 1, dsp_pbclk := 2, dsp_pbclk_div := 0, emi_clk := 2,
    emi_clk_div := 1, flash_clk_type := 1, flash_clk_div := 0,
    wifipll_pu := 1, aupll_pu := 1, cpupll_pu := 1, mipipll_pu := 1,
    uhspll_pu := 1 }

/-- C1: the boot header record type has total size 352 bytes and every
documented field sits at its documented byte offset; the clock record
type has total size 28 bytes with magic at 0, config at 4 and crc32 at
24.  All values are produced by the `#[repr(C)]` layout algorithm from
the declared field lists, i.e. they are constants of the types. -/
theorem boot_header_layout_constants :
    (structLayout HalBootheader_fields).size = 352 ∧
    offsetOf HalBootheader_fields "magic" = some 0x00 ∧
    offsetOf HalBootheader_fields "revision" = some 0x04 ∧
    offsetOf HalBootheader_fields "flash_cfg" = some 0x08 ∧
    offsetOf HalBootheader_fields "clk_cfg" = some 0x64 ∧
    offsetOf HalBootheader_fields "basic_cfg" = some 0x80 ∧
    offsetOf HalBootheader_fields "cpu_cfg" = some 0xB0 ∧
    offsetOf HalBootheader_fields "boot2_pt_table_0" = some 0xF8 ∧
    offsetOf HalBootheader_fields "boot2_pt_table_1" = some 0xFC ∧
    offsetOf HalBootheader_fields "flash_cfg_table_addr" = some 0x100 ∧
    offsetOf HalBootheader_fields "flash_cfg_table_len" = some 0x104 ∧
    offsetOf HalBootheader_fields "patch_on_read" = some 0x108 ∧
    offsetOf HalBootheader_fields "patch_on_jump" = some 0x128 ∧
    offsetOf HalBootheader_fields "crc32" = some 0x15C ∧
    (structLayout HalPllConfig_fields).size = 28 ∧
    offsetOf HalPllConfig_fields "magic" = some 0 ∧
    offsetOf HalPllConfig_fields "cfg" = some 4 ∧
    offsetOf HalPllConfig_fields "crc32" = some 24 := by
  decide

/-- C2: for every clock-selector configuration, `HalPllConfig::new`
returns a record whose magic is `0x47464350`, whose `cfg` is the given
configuration unchanged, and whose `crc32` is the CRC-32/ISO-HDLC
checksum of the 20 selector fields serialized in field-declaration
order, so the checksum of a constructed record always matches its
payload. -/
theorem hal_pll_config_new_checksum_consistent (cfg : HalSysClkConfig) :
    (HalPllConfig.new cfg).magic = 0x47464350 ∧
    (HalPllConfig.new cfg).cfg = cfg ∧
    (HalPllConfig.new cfg).crc32 = crc32_iso_hdlc (serializeSysClkConfig cfg) := by
  refine ⟨rfl, rfl, ?_⟩
  simp only [HalPllConfig.new, HalSysClkConfig.crc32, serializeSysClkConfig,
    List.replicate, List.set_cons_zero, List.set_cons_succ, List.set_nil]

/-- C3: constructing the clock record from the documented reference
configuration yields magic `0x47464350` and crc32 `0x29E2C4C0`. -/
theorem reference_config_magic_crc32 :
    (HalPllConfig.new referenceSysClkConfig).magic = 0x47464350 ∧
    (HalPllConfig.new referenceSysClkConfig).crc32 = 0x29E2C4C0 := by
  decide

/-- C9: the disabled-core sentinel produced by `HalCpuCfg::disabled`
has `config_enable == 0` and `boot_entry == 0`. -/
theorem hal_cpu_cfg_disabled_fields :
    HalCpuCfg.disabled.config_enable = 0 ∧
    HalCpuCfg.disabled.boot_entry = 0 :=
  ⟨rfl, rfl⟩

/-- The handler table has 67 entries. -/
theorem d0_handlers_length : D0_INTERRUPT_HANDLERS.length = 67 := rfl

/-- C4: for every dispatcher invocation, a `none` claim produces zero
handler invocations and zero completion calls, and a claim answering
source id `s` produces exactly one handler invocation when `s` is in
the configured range (and none otherwise) and exactly one completion
call, with the same hart context and source id as the claim. -/
theorem dispatcher_claim_handler_completion (r : Option Nat) :
    (r = none →
      rust_bl808_dsp_machine_external r =
        some [DispatchEvent.claimed D0Machine_index none]) ∧
    (∀ source, r = some source →
      ∃ es, rust_bl808_dsp_machine_external r = some es ∧
        (handlerInvocations es).length =
          (if 16 ≤ source ∧ source < 16 + 67 then 1 else 0) ∧
        completionCalls es = [(D0Machine_index, source)]) := by
  constructor
  · rintro rfl
    rfl
  · rintro source rfl
    by_cases h : 16 ≤ source ∧ source < 16 + 67
    · have hlt : source - 16 < D0_INTERRUPT_HANDLERS.length := by
        have hl := d0_handlers_length
        omega
      refine ⟨[DispatchEvent.claimed D0Machine_index (some source),
               DispatchEvent.handlerInvoked (source - 16)
                 (D0_INTERRUPT_HANDLERS.get ⟨source - 16, hlt⟩),
               DispatchEvent.completed D0Machine_index source], ?_, ?_, rfl⟩
      · simp only [rust_bl808_dsp_machine_external]
        rw [if_pos h, List.get?_eq_get hlt]
      · rw [if_pos h]
        rfl
    · refine ⟨[DispatchEvent.claimed D0Machine_index (some source),
               DispatchEvent.completed D0Machine_index source], ?_, ?_, rfl⟩
      · simp only [rust_bl808_dsp_machine_external]
        rw [if_neg h]
      · rw [if_neg h]
        rfl

/-- Witness for C4 at the concrete claim answer `some 20`. -/
theorem dispatcher_claim_handler_completion_witness :
    ∃ es, rust_bl808_dsp_machine_external (some 20) = some es ∧
      (handlerInvocations es).length =
        (if 16 ≤ 20 ∧ 20 < 16 + 67 then 1 else 0) ∧
      completionCalls es = [(D0Machine_index, 20)] :=
  (dispatcher_claim_handler_completion (some 20)).2 20 rfl

/-- C5: a claimed id exactly at the lower bound 16 is dispatched to
handler-table index 0; an in-range id `i` (16 ≤ i < 16 + 67) is
dispatched to table index `i - 16`; id 15 (one below the bound) and
every id at or above 83 are not dispatched to any handler. -/
theorem dispatcher_boundary_index_mapping :
    (∃ es, rust_bl808_dsp_machine_external (some 16) = some es ∧
       (handlerInvocations es).map Prod.fst = [0]) ∧
    (∀ i, 16 ≤ i → i < 16 + 67 →
       ∃ es, rust_bl808_dsp_machine_external (some i) = some es ∧
         (handlerInvocations es).map Prod.fst = [i - 16]) ∧
    (∃ es, rust_bl808_dsp_machine_external (some 15) = some es ∧
       handlerInvocations es = []) ∧
    (∀ i, 16 + 67 ≤ i →
       ∃ es, rust_bl808_dsp_machine_external (some i) = some es ∧
         handlerInvocations es = []) := by
  refine ⟨?_, ?_, ?_, ?_⟩
  · exact ⟨[DispatchEvent.claimed D0Machine_index (some 16),
            DispatchEvent.handlerInvoked 0 "bmx_dsp_bus_err",
            DispatchEvent.completed D0Machine_index 16], by decide, by decide⟩
  · intro i h1 h2
    have h : 16 ≤ i ∧ i < 16 + 67 := ⟨h1, h2⟩
    have hlt : i - 16 < D0_INTERRUPT_HANDLERS.length := by
      have hl := d0_handlers_length
      omega
    refine ⟨[DispatchEvent.claimed D0Machine_index (some i),
             DispatchEvent.handlerInvoked (i - 16)
               (D0_INTERRUPT_HANDLERS.get ⟨i - 16, hlt⟩),
             DispatchEvent.completed D0Machine_index i], ?_, rfl⟩
    simp only [rust_bl808_dsp_machine_external]
    rw [if_pos h, List.get?_eq_get hlt]
  · exact ⟨[DispatchEvent.claimed D0Machine_index (some 15),
            DispatchEvent.completed D0Machine_index 15], by decide, by decide⟩
  · intro i hi
    have hn : ¬ (16 ≤ i ∧ i < 16 + 67) := by omega
    refine ⟨[DispatchEvent.claimed D0Machine_index (some i),
             DispatchEvent.completed D0Machine_index i], ?_, rfl⟩
    simp only [rust_bl808_dsp_machine_external]
    rw [if_neg hn]

/-- Witness for C5 at the concrete in-range id 40 and the concrete
out-of-range id 90. -/
theorem dispatcher_boundary_index_mapping_witness :
    (∃ es, rust_bl808_dsp_machine_external (some 40) = some es ∧
       (handlerInvocations es).map Prod.fst = [40 - 16]) ∧
    (∃ es, rust_bl808_dsp_machine_external (some 90) = some es ∧
       handlerInvocations es = []) :=
  ⟨dispatcher_boundary_index_mapping.2.1 40 (by decide) (by decide),
   dispatcher_boundary_index_mapping.2.2.2 90 (by decide)⟩

/-- C6 as stated is refuted at the concrete claimed id 100: the id is
outside the configured band, no handler is invoked, yet the dispatcher
does issue a completion call for that claim. -/
theorem out_of_band_completion_counterexample :
    ∃ es, rust_bl808_dsp_machine_external (some 100) = some es ∧
      handlerInvocations es = [] ∧
      completionCalls es = [(D0Machine_index, 100)] ∧
      completionCalls es ≠ [] :=
  ⟨[DispatchEvent.claimed D0Machine_index (some 100),
    DispatchEvent.completed D0Machine_index 100],
   by decide, by decide, by decide, by decide⟩

/-- C6 amended: when the claim returns a source id outside the
configured band (id < 16 or id ≥ 83), the dispatcher performs no
handler invocation but still issues exactly one completion call to the
controller, for the same hart context and claimed source id. -/
theorem out_of_band_no_handler_one_completion (source : Nat)
    (h : source < 16 ∨ 16 + 67 ≤ source) :
    ∃ es, rust_bl808_dsp_machine_external (some source) = some es ∧
      handlerInvocations es = [] ∧
      completionCalls es = [(D0Machine_index, source)] := by
  have hn : ¬ (16 ≤ source ∧ source < 16 + 67) := by omega
  refine ⟨[DispatchEvent.claimed D0Machine_index (some source),
           DispatchEvent.completed D0Machine_index source], ?_, rfl, rfl⟩
  simp only [rust_bl808_dsp_machine_external]
  rw [if_neg hn]

/-- Witness for the amended C6 at the concrete claimed id 100. -/
theorem out_of_band_no_handler_one_completion_witness :
    ∃ es, rust_bl808_dsp_machine_external (some 100) = some es ∧
      handlerInvocations es = [] ∧
      completionCalls es = [(D0Machine_index, 100)] :=
  out_of_band_no_handler_one_completion 100 (by decide)

/-- C10: the dispatcher can never fault on the table access: for every
possible claim answer it never reaches the out-of-bounds (panic)
branch, and every handler invocation it performs uses a table index
strictly below the 67-entry table length. -/
theorem dispatcher_index_always_in_bounds (r : Option Nat) :
    rust_bl808_dsp_machine_external r ≠ none ∧
    (∀ es, rust_bl808_dsp_machine_external r = some es →
      ∀ p ∈ handlerInvocations es, p.1 < D0_INTERRUPT_HANDLERS.length) := by
  cases r with
  | none =>
      refine ⟨Option.some_ne_none _, ?_⟩
      rintro es hes p hp
      have hes2 : [DispatchEvent.claimed D0Machine_index none] = es :=
        Option.some.inj hes
      rw [← hes2] at hp
      cases hp
  | some source =>
      by_cases h : 16 ≤ source ∧ source < 16 + 67
      · have hlt : source - 16 < D0_INTERRUPT_HANDLERS.length := by
          have hl := d0_handlers_length
          omega
        have hrun : rust_bl808_dsp_machine_external (some source) =
            some [DispatchEvent.claimed D0Machine_index (some source),
                  DispatchEvent.handlerInvoked (source - 16)
                    (D0_INTERRUPT_HANDLERS.get ⟨source - 16, hlt⟩),
                  DispatchEvent.completed D0Machine_index source] := by
          simp only [rust_bl808_dsp_machine_external]
          rw [if_pos h, List.get?_eq_get hlt]
        refine ⟨by rw [hrun]; exact Option.some_ne_none _, ?_⟩
        rintro es hes p hp
        rw [hrun] at hes
        have hes2 := Option.some.inj hes
        rw [← hes2] at hp
        have hp2 : p = (source - 16, D0_INTERRUPT_HANDLERS.get ⟨source - 16, hlt⟩) := by
          simpa [handlerInvocations] using hp
        rw [hp2]
        exact hlt
      · have hrun : rust_bl808_dsp_machine_external (some source) =
            some [DispatchEvent.claimed D0Machine_index (some source),
                  DispatchEvent.completed D0Machine_index source] := by
          simp only [rust_bl808_dsp_machine_external]
          rw [if_neg h]
        refine ⟨by rw [hrun]; exact Option.some_ne_none _, ?_⟩
        rintro es hes p hp
        rw [hrun] at hes
        have hes2 := Option.some.inj hes
        rw [← hes2] at hp
        cases hp

/-- Witness for C10 at the concrete claim answer `some 16`, with the
trace equation and the membership hypothesis discharged concretely. -/
theorem dispatcher_index_always_in_bounds_witness :
    rust_bl808_dsp_machine_external (some 16) ≠ none ∧
    (0, "bmx_dsp_bus_err").1 < D0_INTERRUPT_HANDLERS.length :=
  ⟨(dispatcher_index_always_in_bounds (some 16)).1,
   (dispatcher_index_always_in_bounds (some 16)).2
     [DispatchEvent.claimed D0Machine_index (some 16),
      DispatchEvent.handlerInvoked 0 "bmx_dsp_bus_err",
      DispatchEvent.completed D0Machine_index 16]
     (by decide) (0, "bmx_dsp_bus_err") (by decide)⟩

/-- C7 as stated is refuted: the vectored trap table written by
`trap_vectored` has 18 slots (trap causes 0 through 17), not 17. -/
theorem trap_table_slot_count_counterexample :
    trap_vectored.length = 18 ∧ trap_vectored.length ≠ 17 := by
  decide

/-- C7 amended: the vectored trap table consists of exactly 18 slots
in the standard vectored trap-cause order of the hardware; exactly one slot
(index 11, the machine-mode external interrupt cause) routes to the
interrupt dispatch logic, every other slot routes to the `reserved`
halt routine, and that routine loops forever: after any number of
steps it is still at its loop head and has not returned. -/
theorem trap_table_routing :
    trap_vectored.length = 18 ∧
    trap_vectored.get? 11 = some TrapSym.machine_external_sym ∧
    (∀ i, i < trap_vectored.length → i ≠ 11 →
      trap_vectored.get? i = some TrapSym.reserved_sym) ∧
    (∀ n, reservedStep^[n] 0 = 0) := by
  refine ⟨by decide, by decide, by decide, ?_⟩
  intro n
  induction n with
  | zero => rfl
  | succ k ih =>
      rw [Function.iterate_succ_apply]
      exact ih

/-- Witness for the amended C7 at the concrete slot 0 and three loop
steps. -/
theorem trap_table_routing_witness :
    trap_vectored.get? 0 = some TrapSym.reserved_sym ∧
    reservedStep^[3] 0 = 0 :=
  ⟨trap_table_routing.2.2.1 0 (by decide) (by decide),
   trap_table_routing.2.2.2 3⟩

/-- Reading a freshly stored word back yields the stored value. -/
theorem storeWord_at (m : Nat → Nat) (a v : Nat) : storeWord m a v a = v := by
  simp [storeWord]

/-- Reading any other address is unaffected by a store. -/
theorem storeWord_ne (m : Nat → Nat) (a v x : Nat) (h : x ≠ a) :
    storeWord m a v x = m x := by
  simp [storeWord, h]

/-- The entry half moves the stack pointer down by one 152-byte
frame. -/
theorem trapEntry_sp (s : MachineState) : (trapEntry s).sp = s.sp - 152 := rfl

set_option maxHeartbeats 3200000 in
/-- The frame written by the entry half of `machine_external` holds
the entry values of the 19 `TrapFrame` fields, in field order, at
offsets 0, 8, ..., 144 from the new stack pointer. -/
theorem trapEntry_frame (s : MachineState) :
    (trapEntry s).mem ((trapEntry s).sp) = s.ra ∧
    (trapEntry s).mem ((trapEntry s).sp + 8) = s.t0 ∧
    (trapEntry s).mem ((trapEntry s).sp + 16) = s.t1 ∧
    (trapEntry s).mem ((trapEntry s).sp + 24) = s.t2 ∧
    (trapEntry s).mem ((trapEntry s).sp + 32) = s.a0 ∧
    (trapEntry s).mem ((trapEntry s).sp + 40) = s.a1 ∧
    (trapEntry s).mem ((trapEntry s).sp + 48) = s.a2 ∧
    (trapEntry s).mem ((trapEntry s).sp + 56) = s.a3 ∧
    (trapEntry s).mem ((trapEntry s).sp + 64) = s.a4 ∧
    (trapEntry s).mem ((trapEntry s).sp + 72) = s.a5 ∧
    (trapEntry s).mem ((trapEntry s).sp + 80) = s.a6 ∧
    (trapEntry s).mem ((trapEntry s).sp + 88) = s.a7 ∧
    (trapEntry s).mem ((trapEntry s).sp + 96) = s.t3 ∧
    (trapEntry s).mem ((trapEntry s).sp + 104) = s.t4 ∧
    (trapEntry s).mem ((trapEntry s).sp + 112) = s.t5 ∧
    (trapEntry s).mem ((trapEntry s).sp + 120) = s.t6 ∧
    (trapEntry s).mem ((trapEntry s).sp + 128) = s.mcause ∧
    (trapEntry s).mem ((trapEntry s).sp + 136) = s.mepc ∧
    (trapEntry s).mem ((trapEntry s).sp + 144) = s.mstatus := by
  refine ⟨?_, ?_, ?_, ?_, ?_, ?_, ?_, ?_, ?_, ?_, ?_, ?_, ?_, ?_, ?_, ?_,
    ?_, ?_, ?_⟩ <;>
  · rw [trapEntry_sp]
    show storeWord _ _ _ _ = _
    repeat first
    | rw [storeWord_at]
    | rw [storeWord_ne _ _ _ _ (by omega)]

set_option maxHeartbeats 3200000 in
/-- C8: the trap frame is exactly 19 machine words (152 bytes) in the
fixed order ra, t0-t2, a0-a7, t3-t6, mcause, mepc, mstatus; the
context-capture routine saves all of them in that order on trap entry,
and on trap return restores the cause/pc/status control registers
first, then the general-purpose registers, leaving every saved
register and the stack pointer equal to their trap-entry values when
control resumes at the saved program counter.  The hypotheses are the
C ABI guarantees the Rust dispatcher meets: it restores the stack
pointer and does not write the trap-frame slots of the caller; `152 ≤ sp`
says the stack has room for the frame. -/
theorem trap_frame_save_restore (call : MachineState → MachineState)
    (s : MachineState)
    (hsp : 152 ≤ s.sp)
    (hcallsp : (call (trapEntry s)).sp = (trapEntry s).sp)
    (hfp : FramePreserved call s) :
    TrapFrame_fields.length = 19 ∧
    (structLayout TrapFrame_fields).size = 152 ∧
    (structFieldOffsets TrapFrame_fields).map Prod.snd =
      [0, 8, 16, 24, 32, 40, 48, 56, 64, 72, 80, 88, 96, 104, 112, 120,
       128, 136, 144] ∧
    TrapSaveRestoreSpec call s := by
  obtain ⟨hm0, hm1, hm2, hm3, hm4, hm5, hm6, hm7, hm8, hm9, hm10, hm11,
    hm12, hm13, hm14, hm15, hm16, hm17, hm18⟩ := hfp
  obtain ⟨hs0, hs1, hs2, hs3, hs4, hs5, hs6, hs7, hs8, hs9, hs10, hs11,
    hs12, hs13, hs14, hs15, hs16, hs17, hs18⟩ := trapEntry_frame s
  refine ⟨by decide, by decide, by decide, rfl, rfl,
    ⟨hs0, hs1, hs2, hs3, hs4, hs5, hs6, hs7, hs8, hs9, hs10, hs11, hs12,
     hs13, hs14, hs15, hs16, hs17, hs18⟩, ?_⟩
  simp only [machine_external, trapReturn, restoreCsrs, restoreGprs]
  rw [hcallsp]
  exact ⟨hm0.trans hs0, hm1.trans hs1, hm2.trans hs2, hm3.trans hs3,
    hm4.trans hs4, hm5.trans hs5, hm6.trans hs6, hm7.trans hs7,
    hm8.trans hs8, hm9.trans hs9, hm10.trans hs10, hm11.trans hs11,
    hm12.trans hs12, hm13.trans hs13, hm14.trans hs14, hm15.trans hs15,
    hm16.trans hs16, hm17.trans hs17, hm18.trans hs18,
    by rw [trapEntry_sp]; omega, hm17.trans hs17⟩

/-- Witness for C8 at the concrete `exampleMachineState` with the
identity dispatcher effect; the ABI hypotheses hold definitionally
and the stack-room hypothesis is checked by evaluation. -/
theorem trap_frame_save_restore_witness :
    TrapFrame_fields.length = 19 ∧
    (structLayout TrapFrame_fields).size = 152 ∧
    (structFieldOffsets TrapFrame_fields).map Prod.snd =
      [0, 8, 16, 24, 32, 40, 48, 56, 64, 72, 80, 88, 96, 104, 112, 120,
       128, 136, 144] ∧
    TrapSaveRestoreSpec id exampleMachineState :=
  trap_frame_save_restore id exampleMachineState (by decide) rfl
    ⟨rfl, rfl, rfl, rfl, rfl, rfl, rfl, rfl, rfl, rfl, rfl, rfl, rfl, rfl,
     rfl, rfl, rfl, rfl, rfl⟩
